/-
Verification development for the isp-monitor repository
(scripts/monitor.py and scripts/sync_uptimerobot.py).

Shallow embedding conventions:
- Python floats are modelled as exact rationals; where the code takes a
  square root (statistics.stdev) the values live in the reals.
- Python round(x, ndigits) is modelled as exact round-half-to-even
  (banker's rounding) at the given number of decimal digits.
- Python dicts built by the scripts are modelled as association lists
  from string keys to values, so that the presence or absence of a key is
  itself a statable fact.
- Fallible operations return Option; functions that print and return a
  default value are modelled by that returned value.
-/
import Mathlib

namespace ISPMonitor

/-- Round-half-to-even on an exact value, the semantics of Python's
built-in round on a float: values with fractional part below one half
round down, above one half round up, and exact halves round to the even
neighbour. -/
def pyRound {α : Type} [LinearOrderedField α] [FloorRing α] (x : α) : ℤ :=
  if Int.fract x < 1 / 2 then ⌊x⌋
  else if 1 / 2 < Int.fract x then ⌊x⌋ + 1
  else if 2 ∣ ⌊x⌋ then ⌊x⌋ else ⌊x⌋ + 1

/-- Python round(x, n): scale by 10^n, round half to even, scale back. -/
def pyRoundTo {α : Type} [LinearOrderedField α] [FloorRing α] (n : ℕ) (x : α) : α :=
  (pyRound (x * (10 : α) ^ n) : α) / (10 : α) ^ n

/-- monitor.py, calculate_quality_score (lines 115-133): short-circuit to 0
when packet_loss >= 100; otherwise start from 100, subtract
(latency - 50) * 0.5 only when latency > 50, subtract jitter * 2 and
packet_loss * 10, then clamp round(score, 1) into [0, 100]. -/
def calculate_quality_score {α : Type} [LinearOrderedField α] [FloorRing α]
    (latency jitter packet_loss : α) : α :=
  if 100 ≤ packet_loss then 0
  else
    let score : α := 100
    let score := if 50 < latency then score - (latency - 50) * (5 / 10) else score
    let score := score - jitter * 2
    let score := score - packet_loss * 10
    max 0 (min 100 (pyRoundTo 1 score))

section RoundLemmas

variable {α : Type} [LinearOrderedField α] [FloorRing α]

lemma pyRound_le_floor_add_one (x : α) : pyRound x ≤ ⌊x⌋ + 1 := by
  unfold pyRound
  split_ifs <;> omega

lemma floor_le_pyRound (x : α) : ⌊x⌋ ≤ pyRound x := by
  unfold pyRound
  split_ifs <;> omega

lemma pyRound_mono {x y : α} (h : x ≤ y) : pyRound x ≤ pyRound y := by
  have hf : ⌊x⌋ ≤ ⌊y⌋ := Int.floor_mono h
  rcases eq_or_lt_of_le hf with heq | hlt
  · have hfr : Int.fract x ≤ Int.fract y := by
      unfold Int.fract
      rw [← heq]
      linarith
    unfold pyRound
    rw [← heq]
    split_ifs <;> first | omega | linarith
  · have h1 := pyRound_le_floor_add_one x
    have h2 := floor_le_pyRound y
    omega

lemma pyRoundTo_mono (n : ℕ) {x y : α} (h : x ≤ y) :
    pyRoundTo n x ≤ pyRoundTo n y := by
  unfold pyRoundTo
  have hpow : (0 : α) < (10 : α) ^ n := by positivity
  have hmul : x * (10 : α) ^ n ≤ y * (10 : α) ^ n :=
    mul_le_mul_of_nonneg_right h (le_of_lt hpow)
  have hr : (pyRound (x * (10 : α) ^ n) : α) ≤ (pyRound (y * (10 : α) ^ n) : α) := by
    exact_mod_cast pyRound_mono hmul
  exact (div_le_div_iff_of_pos_right hpow).mpr hr

end RoundLemmas

section QualityScore

/-- The quality score is clamped, so it always lies in [0, 100]; the
short-circuit branch returns 0 which also lies in [0, 100]. -/
lemma quality_score_nonneg (l j pl : ℚ) : 0 ≤ calculate_quality_score l j pl := by
  unfold calculate_quality_score
  split_ifs
  · exact le_refl 0
  · exact le_max_left 0 _
  · exact le_max_left 0 _

/-- C1: For every input with latency >= 0, jitter >= 0 and
0 <= packet_loss <= 100, calculate_quality_score returns a value in
[0, 100]. -/
theorem quality_score_in_range (l j pl : ℚ)
    (_hl : 0 ≤ l) (_hj : 0 ≤ j) (_hpl0 : 0 ≤ pl) (_hpl1 : pl ≤ 100) :
    0 ≤ calculate_quality_score l j pl ∧ calculate_quality_score l j pl ≤ 100 := by
  refine ⟨quality_score_nonneg l j pl, ?_⟩
  unfold calculate_quality_score
  split_ifs
  · norm_num
  · exact max_le (by norm_num) (min_le_left 100 _)
  · exact max_le (by norm_num) (min_le_left 100 _)

/-- Witness for C1 at latency = 120, jitter = 3, packet_loss = 2.5. -/
theorem quality_score_in_range_witness :
    0 ≤ calculate_quality_score (120 : ℚ) 3 (5 / 2) ∧
      calculate_quality_score (120 : ℚ) 3 (5 / 2) ≤ 100 :=
  quality_score_in_range 120 3 (5 / 2) (by norm_num) (by norm_num) (by norm_num)
    (by norm_num)

/-- C2: If packet_loss >= 100 then calculate_quality_score returns 0
regardless of latency and jitter (the short-circuit branch at the top of
the function). -/
theorem quality_score_total_loss (l j pl : ℚ) (h : 100 ≤ pl) :
    calculate_quality_score l j pl = 0 := by
  unfold calculate_quality_score
  rw [if_pos h]

/-- Witness for C2 at latency = 1, jitter = 7, packet_loss = 100. -/
theorem quality_score_total_loss_witness :
    calculate_quality_score (1 : ℚ) 7 100 = 0 :=
  quality_score_total_loss 1 7 100 (by norm_num)

/-- C7: calculate_quality_score(150, 5, 0) = 40.0 and
calculate_quality_score(50, 0, 0) = 100 (the no-penalty boundary at
exactly 50 ms latency). -/
theorem quality_score_examples :
    calculate_quality_score (150 : ℚ) 5 0 = 40 ∧
      calculate_quality_score (50 : ℚ) 0 0 = 100 := by
  constructor <;> norm_num [calculate_quality_score, pyRoundTo, pyRound, Int.fract]

/-- Clamping and rounding preserve order. -/
lemma clamp_round_mono {x y : ℚ} (h : x ≤ y) :
    max 0 (min 100 (pyRoundTo 1 x)) ≤ max 0 (min 100 (pyRoundTo 1 y)) :=
  max_le_max (le_refl 0) (min_le_min (le_refl 100) (pyRoundTo_mono 1 h))

/-- The quality score decreases when the latency penalty, the jitter and
the packet loss each grow (componentwise comparison of the two calls). -/
lemma quality_le_of_components {l1 j1 p1 l2 j2 p2 : ℚ}
    (hp : p1 ≤ p2) (hj : j1 ≤ j2)
    (hl : (if 50 < l1 then (l1 - 50) * (5 / 10) else 0) ≤
      (if 50 < l2 then (l2 - 50) * (5 / 10) else 0)) :
    calculate_quality_score l2 j2 p2 ≤ calculate_quality_score l1 j1 p1 := by
  unfold calculate_quality_score
  by_cases h1 : 100 ≤ p1
  · rw [if_pos h1, if_pos (le_trans h1 hp)]
  · rw [if_neg h1]
    by_cases h2 : 100 ≤ p2
    · rw [if_pos h2]
      exact le_max_left 0 _
    · rw [if_neg h2]
      have e1 : (if 50 < l1 then (100 : ℚ) - (l1 - 50) * (5 / 10) else 100) =
          100 - (if 50 < l1 then (l1 - 50) * (5 / 10) else 0) := by
        split_ifs <;> ring
      have e2 : (if 50 < l2 then (100 : ℚ) - (l2 - 50) * (5 / 10) else 100) =
          100 - (if 50 < l2 then (l2 - 50) * (5 / 10) else 0) := by
        split_ifs <;> ring
      have key : (if 50 < l2 then (100 : ℚ) - (l2 - 50) * (5 / 10) else 100) -
          j2 * 2 - p2 * 10 ≤
          (if 50 < l1 then (100 : ℚ) - (l1 - 50) * (5 / 10) else 100) -
          j1 * 2 - p1 * 10 := by
        rw [e1, e2]
        linarith
      exact clamp_round_mono key

/-- C3: holding the other two arguments fixed at valid values, the quality
score is monotonically non-increasing in latency beyond 50 ms, in jitter,
and in packet loss, each independently. -/
theorem quality_score_monotone :
    (∀ j pl l1 l2 : ℚ, 0 ≤ j → 0 ≤ pl → pl ≤ 100 → 50 ≤ l1 → l1 ≤ l2 →
      calculate_quality_score l2 j pl ≤ calculate_quality_score l1 j pl) ∧
    (∀ l pl j1 j2 : ℚ, 0 ≤ l → 0 ≤ pl → pl ≤ 100 → 0 ≤ j1 → j1 ≤ j2 →
      calculate_quality_score l j2 pl ≤ calculate_quality_score l j1 pl) ∧
    (∀ l j pl1 pl2 : ℚ, 0 ≤ l → 0 ≤ j → 0 ≤ pl1 → pl1 ≤ pl2 → pl2 ≤ 100 →
      calculate_quality_score l j pl2 ≤ calculate_quality_score l j pl1) := by
  refine ⟨?_, ?_, ?_⟩
  · intro j pl l1 l2 _ _ _ hl1 hl12
    apply quality_le_of_components (le_refl pl) (le_refl j)
    split_ifs with a b
    · linarith
    · linarith
    · linarith
    · exact le_refl 0
  · intro l pl j1 j2 _ _ _ _ hj12
    exact quality_le_of_components (le_refl pl) hj12 (le_refl _)
  · intro l j pl1 pl2 _ _ _ h12 _
    exact quality_le_of_components h12 (le_refl j) (le_refl _)

/-- Witness for C3: latency 55 to 60 at fixed (jitter, loss) = (0, 0);
jitter 1 to 2 at fixed (latency, loss) = (10, 0); packet loss 2 to 3 at
fixed (latency, jitter) = (10, 0). -/
theorem quality_score_monotone_witness :
    calculate_quality_score (60 : ℚ) 0 0 ≤ calculate_quality_score (55 : ℚ) 0 0 ∧
      calculate_quality_score (10 : ℚ) 2 0 ≤ calculate_quality_score (10 : ℚ) 1 0 ∧
      calculate_quality_score (10 : ℚ) 0 3 ≤ calculate_quality_score (10 : ℚ) 0 2 :=
  ⟨quality_score_monotone.1 0 0 55 60 (by norm_num) (by norm_num) (by norm_num)
      (by norm_num) (by norm_num),
    quality_score_monotone.2.1 10 0 1 2 (by norm_num) (by norm_num) (by norm_num)
      (by norm_num) (by norm_num),
    quality_score_monotone.2.2 10 0 2 3 (by norm_num) (by norm_num) (by norm_num)
      (by norm_num) (by norm_num)⟩

end QualityScore

/-- A value held in one of the Python dicts the scripts build: a string or
a number (floats and ints are both modelled as exact reals). -/
inductive PVal where
  | str (s : String)
  | num (x : ℝ)

/-- A Python dict as built literally by the scripts: an association list
from string keys to values, in insertion order. -/
def PyDict : Type := List (String × PVal)

/-- statistics.mean: sum of the samples over their number. -/
noncomputable def mean (l : List ℝ) : ℝ := l.sum / l.length

/-- statistics.stdev: square root of the sample variance, whose
denominator is the number of samples minus one. -/
noncomputable def sampleStdev (l : List ℝ) : ℝ :=
  Real.sqrt ((l.map fun x => (x - mean l) ^ 2).sum / ((l.length : ℝ) - 1))

/-- monitor.py, ping_host lines 55-82, after the per-line regex has
produced the list of parsed reply times: none when no latency was parsed
(lines 65-67), otherwise the statistics block of lines 69-79 — mean,
sample standard deviation when more than one reply (else 0), loss ratio
from the requested count, each rounded to 2 decimals, and status UP.
The result dict has exactly these four keys. -/
noncomputable def ping_stats (count : ℕ) (latencies : List ℝ) : Option PyDict :=
  if latencies = [] then none
  else
    let avg_latency := mean latencies
    let jitter := if 1 < latencies.length then sampleStdev latencies else 0
    let packet_loss := (((count : ℝ) - latencies.length) / count) * 100
    some [("avg_latency", .num (pyRoundTo 2 avg_latency)),
          ("jitter", .num (pyRoundTo 2 jitter)),
          ("packet_loss", .num (pyRoundTo 2 packet_loss)),
          ("status", .str "UP")]

section PingStats

lemma pyRoundTo_zero {α : Type} [LinearOrderedField α] [FloorRing α] (n : ℕ) :
    pyRoundTo n (0 : α) = 0 := by
  simp [pyRoundTo, pyRound, Int.fract]

lemma pyRound_eq_of_bounds {α : Type} [LinearOrderedField α] [FloorRing α]
    {x : α} {n : ℤ} (h1 : (n : α) ≤ x) (h2 : x < (n : α) + 1 / 2) :
    pyRound x = n := by
  have hfl : ⌊x⌋ = n := by
    rw [Int.floor_eq_iff]
    refine ⟨h1, by linarith⟩
  have hfr : Int.fract x < 1 / 2 := by
    unfold Int.fract
    rw [hfl]
    linarith
  unfold pyRound
  rw [if_pos hfr, hfl]

/-- C6 (amended): for a probe of sampleCount attempts with at least one
parsed reply time, the result dict carries avg_latency = mean of the
replies rounded to two decimals, jitter = sample standard deviation of
the replies rounded to two decimals (0 when exactly one reply),
packet_loss = (sampleCount - repliesReceived) / sampleCount * 100 rounded
to two decimals, status = UP, and no method key at all. -/
theorem ping_stats_fields (count : ℕ) (latencies : List ℝ) (h : latencies ≠ []) :
    (ping_stats count latencies).bind (List.lookup "avg_latency") =
      some (PVal.num (pyRoundTo 2 (latencies.sum / latencies.length))) ∧
    (1 < latencies.length →
      (ping_stats count latencies).bind (List.lookup "jitter") =
        some (PVal.num (pyRoundTo 2 (sampleStdev latencies)))) ∧
    (latencies.length = 1 →
      (ping_stats count latencies).bind (List.lookup "jitter") = some (PVal.num 0)) ∧
    (ping_stats count latencies).bind (List.lookup "packet_loss") =
      some (PVal.num (pyRoundTo 2 ((((count : ℝ) - latencies.length) / count) * 100))) ∧
    (ping_stats count latencies).bind (List.lookup "status") = some (PVal.str "UP") ∧
    (ping_stats count latencies).bind (List.lookup "method") = none := by
  unfold ping_stats
  rw [if_neg h]
  refine ⟨by simp [List.lookup, mean], ?_, ?_, by simp [List.lookup], by simp [List.lookup],
    by simp [List.lookup]⟩
  · intro hlen
    simp [List.lookup, if_pos hlen]
  · intro hlen
    have hnot : ¬ 1 < latencies.length := by omega
    simp [List.lookup, if_neg hnot, pyRoundTo_zero]

/-- Witness for C6 (amended) at count = 5 with the single parsed reply 10. -/
theorem ping_stats_fields_witness :
    (ping_stats 5 [10]).bind (List.lookup "avg_latency") =
      some (PVal.num (pyRoundTo 2 (List.sum [10] / (List.length [(10 : ℝ)] : ℝ)))) ∧
    (1 < List.length [(10 : ℝ)] →
      (ping_stats 5 [10]).bind (List.lookup "jitter") =
        some (PVal.num (pyRoundTo 2 (sampleStdev [10])))) ∧
    (List.length [(10 : ℝ)] = 1 →
      (ping_stats 5 [10]).bind (List.lookup "jitter") = some (PVal.num 0)) ∧
    (ping_stats 5 [10]).bind (List.lookup "packet_loss") =
      some (PVal.num (pyRoundTo 2 ((((5 : ℕ) - List.length [(10 : ℝ)] : ℝ) /
        ((5 : ℕ) : ℝ)) * 100))) ∧
    (ping_stats 5 [10]).bind (List.lookup "status") = some (PVal.str "UP") ∧
    (ping_stats 5 [10]).bind (List.lookup "method") = none :=
  ping_stats_fields 5 [10] (by simp)

/-- C6 as literally stated fails: at 3 attempts with parsed replies
[10, 12] the code stores jitter 1.41, which is not the sample standard
deviation sqrt 2, stores packet_loss 33.33, which is not
(3 - 2) / 3 * 100, and stores no method key at all. -/
theorem ping_stats_claim_counterexample :
    (ping_stats 3 [10, 12]).bind (List.lookup "jitter") =
      some (PVal.num (pyRoundTo 2 (sampleStdev [10, 12]))) ∧
    pyRoundTo 2 (sampleStdev [10, 12]) = 141 / 100 ∧
    (141 / 100 : ℝ) ≠ sampleStdev [10, 12] ∧
    (ping_stats 3 [10, 12]).bind (List.lookup "packet_loss") =
      some (PVal.num (pyRoundTo 2 ((((3 : ℕ) : ℝ) - (([(10 : ℝ), 12]).length : ℝ)) /
        ((3 : ℕ) : ℝ) * 100))) ∧
    pyRoundTo 2 ((((3 : ℕ) : ℝ) - (([(10 : ℝ), 12]).length : ℝ)) /
      ((3 : ℕ) : ℝ) * 100) = 3333 / 100 ∧
    (3333 / 100 : ℝ) ≠
      (((3 : ℕ) : ℝ) - (([(10 : ℝ), 12]).length : ℝ)) / ((3 : ℕ) : ℝ) * 100 ∧
    (ping_stats 3 [10, 12]).bind (List.lookup "method") = none := by
  have hne : ([(10 : ℝ), 12]) ≠ [] := by simp
  have hsd : sampleStdev [10, 12] = Real.sqrt 2 := by
    unfold sampleStdev mean
    norm_num
  have hsq : Real.sqrt 2 ^ 2 = 2 := Real.sq_sqrt (by norm_num)
  have hnn : (0 : ℝ) ≤ Real.sqrt 2 := Real.sqrt_nonneg 2
  have hlo : (141 / 100 : ℝ) < Real.sqrt 2 := by nlinarith [hsq, hnn]
  have hhi : Real.sqrt 2 < 1415 / 1000 := by nlinarith [hsq, hnn]
  have harg : (((3 : ℕ) : ℝ) - (([(10 : ℝ), 12]).length : ℝ)) / ((3 : ℕ) : ℝ) * 100 =
      100 / 3 := by
    norm_num
  have hround : pyRoundTo 2 (sampleStdev [10, 12]) = 141 / 100 := by
    rw [hsd]
    have e : pyRound (Real.sqrt 2 * (10 : ℝ) ^ 2) = (141 : ℤ) := by
      refine pyRound_eq_of_bounds ?_ ?_
      · push_cast
        nlinarith [hlo]
      · push_cast
        nlinarith [hhi]
    unfold pyRoundTo
    rw [e]
    norm_num
  have hpl : pyRoundTo 2 ((100 : ℝ) / 3) = 3333 / 100 := by
    have e : pyRound ((100 : ℝ) / 3 * (10 : ℝ) ^ 2) = (3333 : ℤ) := by
      refine pyRound_eq_of_bounds ?_ ?_
      · push_cast
        norm_num
      · push_cast
        norm_num
    unfold pyRoundTo
    rw [e]
    norm_num
  refine ⟨?_, hround, ?_, ?_, by rw [harg]; exact hpl, by rw [harg]; norm_num, ?_⟩
  · unfold ping_stats
    rw [if_neg hne]
    simp [List.lookup]
  · rw [hsd]
    exact ne_of_lt hlo
  · unfold ping_stats
    rw [if_neg hne]
    simp [List.lookup]
  · unfold ping_stats
    rw [if_neg hne]
    simp [List.lookup]

end PingStats

/-- Numeric view of a dict value; the scripts only apply it to keys they
have stored numbers under. -/
def PVal.asNum : PVal → ℝ
  | .num x => x
  | .str _ => 0

/-- Reading a numeric entry of a dict, as ping_result['avg_latency'] and
friends do in monitor.py main. -/
def dictNum (d : PyDict) (k : String) : ℝ := ((List.lookup k d).getD (PVal.num 0)).asNum

/-- monitor.py main lines 189-194: take the ping result, and when it is
missing fall back to the curl test (only non-empty dicts are produced, so
Python truthiness coincides with Option matching). -/
def probe_target (ping curl : Option PyDict) : Option PyDict :=
  match ping with
  | some r => some r
  | none => curl

/-- monitor.py main lines 196-223: the per-target record. A successful
probe is copied field by field and given a computed quality score; a
failed probe yields the literal DOWN record of lines 214-223. This is a
total function: the failure case is an ordinary value, not an exception. -/
noncomputable def isp_result (ts isp ip : String) (probe : Option PyDict) : PyDict :=
  match probe with
  | some pr =>
      [("timestamp", .str ts), ("isp_name", .str isp), ("ip", .str ip),
       ("status", (List.lookup "status" pr).getD (.str "")),
       ("avg_latency", .num (dictNum pr "avg_latency")),
       ("jitter", .num (dictNum pr "jitter")),
       ("packet_loss", .num (dictNum pr "packet_loss")),
       ("quality_score", .num (calculate_quality_score (dictNum pr "avg_latency")
         (dictNum pr "jitter") (dictNum pr "packet_loss")))]
  | none =>
      [("timestamp", .str ts), ("isp_name", .str isp), ("ip", .str ip),
       ("status", .str "DOWN"),
       ("avg_latency", .num 0), ("jitter", .num 0),
       ("packet_loss", .num 100), ("quality_score", .num 0)]

/-- monitor.py main lines 184-230: probe every configured target in order
and collect the records; the collected list is what main then hands to
save_to_csv and save_to_json. Total: no target outcome raises. -/
noncomputable def run_main (ts : String) (config : List (String × String))
    (ping curl : String → Option PyDict) : List PyDict :=
  config.map fun t => isp_result ts t.1 t.2 (probe_target (ping t.2) (curl t.2))

/-- monitor.py save_to_json lines 155-172 and sync_uptimerobot.py
save_to_json lines 190-212: read the day file when present (else start
from the empty array), extend with the new results, write the whole list
back. The file system is abstracted to the optional prior contents of the
day file; the returned list is the new contents. -/
def save_to_json {α : Type} (existing : Option (List α)) (results : List α) : List α :=
  (match existing with
   | some data => data
   | none => []) ++ results

section Persistence

/-- C8: save_to_json keeps every previously stored record, unchanged and
in order, and appends the new results after them; it starts from the
empty array when the file is absent; re-running it only grows the day's
records. -/
theorem save_to_json_appends {α : Type} (old new1 new2 : List α) :
    save_to_json (some old) new1 = old ++ new1 ∧
    save_to_json none new1 = new1 ∧
    (save_to_json (some old) new1).length = old.length + new1.length ∧
    save_to_json (some (save_to_json (some old) new1)) new2 = old ++ new1 ++ new2 := by
  refine ⟨rfl, rfl, ?_, ?_⟩
  · simp [save_to_json]
  · simp [save_to_json]

end Persistence

section DownRecord

/-- C4 as stated fails: the terminal DOWN record built by monitor.py main
has no method key at all, so in particular no method=FAILED entry. -/
theorem down_record_no_method :
    List.lookup "method" (isp_result "2024-01-01T00:00:00+00:00" "BSNL"
      "117.199.72.1" none) ≠ some (PVal.str "FAILED") := by
  simp [isp_result, List.lookup]

/-- C4 (amended): when neither strategy succeeds the recorded measurement
is exactly the DOWN record with avg_latency 0, jitter 0, packet_loss 100
and quality_score 0 (and no method key); it sits in the list of records
that main hands to persistence, produced as a normal value, not an
error. -/
theorem down_record_shape (ts isp ip : String) (config : List (String × String))
    (ping curl : String → Option PyDict) (hmem : (isp, ip) ∈ config)
    (hping : ping ip = none) (hcurl : curl ip = none) :
    isp_result ts isp ip (probe_target (ping ip) (curl ip)) =
      [("timestamp", PVal.str ts), ("isp_name", PVal.str isp), ("ip", PVal.str ip),
       ("status", PVal.str "DOWN"),
       ("avg_latency", PVal.num 0), ("jitter", PVal.num 0),
       ("packet_loss", PVal.num 100), ("quality_score", PVal.num 0)] ∧
    isp_result ts isp ip (probe_target (ping ip) (curl ip)) ∈
      run_main ts config ping curl ∧
    List.lookup "method" (isp_result ts isp ip (probe_target (ping ip) (curl ip))) =
      none := by
  refine ⟨?_, ?_, ?_⟩
  · rw [hping, hcurl]
    rfl
  · exact List.mem_map.mpr ⟨(isp, ip), hmem, rfl⟩
  · rw [hping, hcurl]
    simp [probe_target, isp_result, List.lookup]

/-- Witness for C4 (amended): one configured target whose ping and curl
probes both fail. -/
theorem down_record_shape_witness :
    isp_result "t0" "BSNL" "1.2.3.4"
        (probe_target ((fun _ => none) "1.2.3.4") ((fun _ => none) "1.2.3.4")) =
      [("timestamp", PVal.str "t0"), ("isp_name", PVal.str "BSNL"),
       ("ip", PVal.str "1.2.3.4"), ("status", PVal.str "DOWN"),
       ("avg_latency", PVal.num 0), ("jitter", PVal.num 0),
       ("packet_loss", PVal.num 100), ("quality_score", PVal.num 0)] ∧
    isp_result "t0" "BSNL" "1.2.3.4"
        (probe_target ((fun _ => none) "1.2.3.4") ((fun _ => none) "1.2.3.4")) ∈
      run_main "t0" [("BSNL", "1.2.3.4")] (fun _ => none) (fun _ => none) ∧
    List.lookup "method" (isp_result "t0" "BSNL" "1.2.3.4"
      (probe_target ((fun _ => none) "1.2.3.4") ((fun _ => none) "1.2.3.4"))) = none :=
  down_record_shape "t0" "BSNL" "1.2.3.4" [("BSNL", "1.2.3.4")]
    (fun _ => none) (fun _ => none) (by simp) rfl rfl

end DownRecord

/-- sync_uptimerobot.py process_monitor_data lines 130-141: the uptime
percentage taken for one monitor record. monitor.get returns 0 when
all_time_uptime_ratio is absent; the fallback runs when that value equals
0 and custom_uptime_ratios is truthy (present and non-empty), and picks
the third, second or first custom ratio by how many exist. -/
def uptime_percentage (all_time : Option ℚ) (custom : Option (List ℚ)) : ℚ :=
  let u := all_time.getD 0
  match custom with
  | some l =>
      if u = 0 ∧ l ≠ [] then
        if 3 ≤ l.length then l.getD 2 0
        else if 2 ≤ l.length then l.getD 1 0
        else l.getD 0 0
      else u
  | none => u

/-- A monitor row as processed_monitor carries it into create_summary_json
(sync_uptimerobot.py lines 146-160): only the fields the summary reads. -/
structure ProcessedMonitor where
  status : String
  uptime_percentage : ℚ
  response_time_ms : ℤ

/-- The summary dict written by create_summary_json. -/
structure SummaryJson where
  last_updated : String
  total_monitors : ℕ
  monitors_up : ℕ
  monitors_down : ℕ
  average_uptime : ℚ
  average_response_time : ℚ
  monitors : List ProcessedMonitor

/-- sync_uptimerobot.py create_summary_json lines 214-240: an all-zero
summary for an empty record list, otherwise counts of UP and of
DOWN/SEEMS_DOWN records and the two rounded averages. -/
def create_summary_json (ts : String) (data : List ProcessedMonitor) : SummaryJson :=
  if data.isEmpty then
    ⟨ts, 0, 0, 0, 0, 0, []⟩
  else
    ⟨ts, data.length,
      (data.filter fun m => m.status == "UP").length,
      (data.filter fun m => m.status == "DOWN" || m.status == "SEEMS_DOWN").length,
      pyRoundTo 2 ((data.map fun m => m.uptime_percentage).sum / data.length),
      pyRoundTo 2 ((data.map fun m => (m.response_time_ms : ℚ)).sum / data.length),
      data⟩

/-- Account details as sync_data uses them after fetch_account_details
succeeds. -/
structure AccountInfo where
  email : String
  monitor_interval : ℚ

/-- Outcome of the getMonitors request and body parse in
sync_uptimerobot.py fetch_monitors lines 51-86: a parsed ok body with its
monitor list, a parsed body whose stat is not ok, a transport error, or a
body that is not valid JSON. -/
inductive FetchOutcome (μ : Type) where
  | ok (monitors : List μ)
  | apiError (msg : String)
  | requestError (msg : String)
  | jsonDecodeError (msg : String)

/-- fetch_monitors returns the monitor list on an ok response and the
empty list in every other case, including a JSON decode failure (lines
76-86 print a diagnostic and return []). -/
def fetch_monitors {μ : Type} : FetchOutcome μ → List μ
  | .ok ms => ms
  | .apiError _ => []
  | .requestError _ => []
  | .jsonDecodeError _ => []

/-- sync_uptimerobot.py sync_data lines 242-290: False when the account
check fails; otherwise fetch the monitors, and whether the list is empty
(which covers every fetch failure) or full of data, finish and return
True. -/
def sync_data {μ : Type} (account : Option AccountInfo) (outcome : FetchOutcome μ) :
    Bool :=
  match account with
  | none => false
  | some _ =>
      let monitors := fetch_monitors outcome
      if monitors.isEmpty then true
      else true

/-- Python str.startswith: the pattern's characters are a prefix of the
string's characters. -/
def py_startswith (s p : String) : Bool := p.data.isPrefixOf s.data

/-- sync_uptimerobot.py main lines 292-323 plus the exit at lines 325-327:
exit 1 when the key is missing or malformed, else exit 0 exactly when
sync_data returns True. -/
def main_exit {μ : Type} (api_key : Option String) (account : Option AccountInfo)
    (outcome : FetchOutcome μ) : ℕ :=
  match api_key with
  | none => 1
  | some k =>
      if py_startswith k "ur-" || py_startswith k "u" || py_startswith k "m" then
        if sync_data account outcome then 0 else 1
      else 1

section SyncScript

/-- C5 is right and the code is wrong: a getMonitors body that fails JSON
parsing is folded into the empty monitor list, sync_data then writes an
empty summary and returns True, and the process exits 0 — the parse
failure is silently converted into a successful run. -/
theorem json_decode_error_exits_zero :
    fetch_monitors (FetchOutcome.jsonDecodeError "Expecting value: line 1 column 1"
      : FetchOutcome Unit) = [] ∧
    sync_data (some ⟨"ops", 5⟩) (FetchOutcome.jsonDecodeError
      "Expecting value: line 1 column 1" : FetchOutcome Unit) = true ∧
    main_exit (some "u2969607") (some ⟨"ops", 5⟩) (FetchOutcome.jsonDecodeError
      "Expecting value: line 1 column 1" : FetchOutcome Unit) = 0 :=
  ⟨rfl, rfl, rfl⟩

/-- C9: process_monitor_data prefers a non-zero all_time_uptime_ratio;
when that value is 0 or missing it falls back to the third custom ratio
if at least three exist, else the second, else the first, else 0; and a
genuine all-time value 0 behaves exactly like a missing one. -/
theorem uptime_percentage_spec :
    (∀ (u : ℚ) (c : Option (List ℚ)), u ≠ 0 → uptime_percentage (some u) c = u) ∧
    (∀ c : Option (List ℚ), uptime_percentage (some 0) c = uptime_percentage none c) ∧
    (∀ (a b c : ℚ) (rest : List ℚ),
      uptime_percentage none (some (a :: b :: c :: rest)) = c) ∧
    (∀ a b : ℚ, uptime_percentage none (some [a, b]) = b) ∧
    (∀ a : ℚ, uptime_percentage none (some [a]) = a) ∧
    uptime_percentage none (some []) = 0 ∧
    uptime_percentage none none = 0 := by
  refine ⟨?_, ?_, ?_, ?_, ?_, rfl, rfl⟩
  · intro u c hu
    cases c with
    | none => rfl
    | some l =>
        simp only [uptime_percentage, Option.getD_some]
        rw [if_neg]
        intro hc
        exact hu hc.1
  · intro c
    cases c with
    | none => rfl
    | some l => rfl
  · intro a b c rest
    simp [uptime_percentage]
  · intro a b
    simp [uptime_percentage]
  · intro a
    simp [uptime_percentage]

/-- Witness for C9: a non-zero all-time ratio wins over custom ratios. -/
theorem uptime_percentage_spec_witness :
    uptime_percentage (some (999 / 10)) (some [1, 2, 3]) = 999 / 10 :=
  uptime_percentage_spec.1 (999 / 10) (some [1, 2, 3]) (by norm_num)

/-- Two disjoint filters together keep at most all elements. -/
lemma filter_disjoint_le {γ : Type} (p q : γ → Bool)
    (hdisj : ∀ x, ¬(p x = true ∧ q x = true)) (l : List γ) :
    (l.filter p).length + (l.filter q).length ≤ l.length := by
  induction l with
  | nil => simp
  | cons a t ih =>
      by_cases hp : p a
      · have hq : ¬ q a = true := fun hq => hdisj a ⟨hp, hq⟩
        simp only [List.filter_cons, if_pos hp, if_neg hq, List.length_cons]
        omega
      · by_cases hq : q a
        · simp only [List.filter_cons, if_neg hp, if_pos hq, List.length_cons]
          omega
        · simp only [List.filter_cons, if_neg hp, if_neg hq, List.length_cons]
          omega

/-- With a member matching neither filter, two disjoint filters together
keep strictly fewer than all elements. -/
lemma filter_disjoint_lt {γ : Type} (p q : γ → Bool)
    (hdisj : ∀ x, ¬(p x = true ∧ q x = true)) {l : List γ} {m : γ}
    (hm : m ∈ l) (hpm : ¬ p m = true) (hqm : ¬ q m = true) :
    (l.filter p).length + (l.filter q).length < l.length := by
  induction l with
  | nil => cases hm
  | cons a t ih =>
      rcases List.mem_cons.mp hm with rfl | hmt
      · simp only [List.filter_cons, if_neg hpm, if_neg hqm, List.length_cons]
        have := filter_disjoint_le p q hdisj t
        omega
      · have ht := ih hmt
        by_cases hp : p a
        · have hq : ¬ q a = true := fun hq => hdisj a ⟨hp, hq⟩
          simp only [List.filter_cons, if_pos hp, if_neg hq, List.length_cons]
          omega
        · by_cases hq : q a
          · simp only [List.filter_cons, if_neg hp, if_pos hq, List.length_cons]
            omega
          · simp only [List.filter_cons, if_neg hp, if_neg hq, List.length_cons]
            omega

/-- The UP filter and the DOWN/SEEMS_DOWN filter never match the same
record. -/
lemma status_filters_disjoint :
    ∀ x : ProcessedMonitor, ¬((x.status == "UP") = true ∧
      (x.status == "DOWN" || x.status == "SEEMS_DOWN") = true) := by
  intro x hx
  obtain ⟨h1, h2⟩ := hx
  rw [beq_iff_eq] at h1
  rw [h1] at h2
  simp at h2

/-- C10: create_summary_json counts monitors_up as the records with
status UP and monitors_down as those with status DOWN or SEEMS_DOWN, so
their sum never exceeds total_monitors and is strictly below it whenever
some record carries any other status; an empty record list produces the
all-zero summary through the guarded branch, with no mean division. -/
theorem create_summary_json_spec :
    (∀ ts : String, create_summary_json ts [] = ⟨ts, 0, 0, 0, 0, 0, []⟩) ∧
    (∀ (ts : String) (data : List ProcessedMonitor),
      (create_summary_json ts data).monitors_up =
        data.countP (fun m => m.status == "UP") ∧
      (create_summary_json ts data).monitors_down =
        data.countP (fun m => m.status == "DOWN" || m.status == "SEEMS_DOWN") ∧
      (create_summary_json ts data).monitors_up +
          (create_summary_json ts data).monitors_down ≤
        (create_summary_json ts data).total_monitors) ∧
    (∀ (ts : String) (data : List ProcessedMonitor) (m : ProcessedMonitor),
      m ∈ data → m.status ≠ "UP" → m.status ≠ "DOWN" → m.status ≠ "SEEMS_DOWN" →
      (create_summary_json ts data).monitors_up +
          (create_summary_json ts data).monitors_down <
        (create_summary_json ts data).total_monitors) := by
  refine ⟨fun ts => rfl, ?_, ?_⟩
  · intro ts data
    by_cases hdata : data = []
    · subst hdata
      refine ⟨rfl, rfl, ?_⟩
      simp [create_summary_json]
    · have hne : ¬ data.isEmpty = true := by
        simp [List.isEmpty_iff, hdata]
      unfold create_summary_json
      rw [if_neg hne]
      refine ⟨?_, ?_, ?_⟩
      · exact (List.countP_eq_length_filter _ _).symm
      · exact (List.countP_eq_length_filter _ _).symm
      · exact filter_disjoint_le _ _ status_filters_disjoint data
  · intro ts data m hm h1 h2 h3
    have hdata : data ≠ [] := List.ne_nil_of_mem hm
    have hne : ¬ data.isEmpty = true := by
      simp [List.isEmpty_iff, hdata]
    unfold create_summary_json
    rw [if_neg hne]
    refine filter_disjoint_lt _ _ status_filters_disjoint hm ?_ ?_
    · simp [h1]
    · simp [h2, h3]

/-- Witness for C10: the empty summary, and a single PAUSED record, which
is counted neither up nor down. -/
theorem create_summary_json_spec_witness :
    create_summary_json "t" [] = ⟨"t", 0, 0, 0, 0, 0, []⟩ ∧
    (create_summary_json "t" [⟨"PAUSED", 99, 10⟩]).monitors_up +
        (create_summary_json "t" [⟨"PAUSED", 99, 10⟩]).monitors_down <
      (create_summary_json "t" [⟨"PAUSED", 99, 10⟩]).total_monitors :=
  ⟨create_summary_json_spec.1 "t",
    create_summary_json_spec.2.2 "t" [⟨"PAUSED", 99, 10⟩] ⟨"PAUSED", 99, 10⟩
      (by simp) (by simp) (by simp) (by simp)⟩

end SyncScript

end ISPMonitor
